import Mathlib

/-!
Shallow embedding of the payment-gateway facade server (src/server.js and
src/config.js). Request fields that arrive from JSON are modelled as
`Option`-typed values: `none` is an absent (undefined) field, and the
JavaScript truthiness test `!x` on a string or number field is made explicit
(`none` and the empty string, respectively the number 0, are falsy).
The HMAC-SHA256 hex digest and `JSON.stringify` are external library
functions; the handlers are parameterised over them, so every theorem holds
for the actual implementations. Responses are JSON values; the effect of
calling the provider is recorded as the list of calls made.
-/

/-- A JSON value, used for response bodies (and mirrors the object literals
in the source). -/
inductive JVal where
  | str : String → JVal
  | num : Int → JVal
  | bool : Bool → JVal
  | obj : List (String × JVal) → JVal
deriving Repr

/-- Server configuration, after src/config.js (the environment values are
opaque strings). -/
structure Config where
  keyId : String
  keySecret : String
  webhookSecret : String
deriving Repr

/-- JavaScript truthiness of a possibly-absent string field: `undefined`
and the empty string are falsy. -/
def truthyS : Option String → Bool
  | none => false
  | some s => s != ""

/-- JavaScript truthiness of a possibly-absent number field: `undefined`
and 0 are falsy. -/
def truthyN : Option Int → Bool
  | none => false
  | some n => n != 0

/-- `s.slice(-n)` in JavaScript: the last `n` characters of `s` (all of `s`
when it is shorter than `n`). -/
def jsSliceLast (n : Nat) (s : String) : String :=
  ⟨s.data.drop (s.data.length - n)⟩

/-- Request body of POST /api/create-order (fields may be absent). -/
structure OrderReq where
  planId : Option String
  userId : Option String
  amount : Option Int
  currency : Option String
deriving Repr

/-- The options object passed to `razorpay.orders.create`. -/
structure OrderOptions where
  amount : Int
  currency : String
  receipt : String
  notesPlanId : String
  notesUserId : String
deriving Repr

/-- An order as returned by the provider. -/
structure ProviderOrder where
  id : String
  amount : Int
  currency : String
deriving Repr

/-- The inner `error` object of a provider exception. -/
structure ProviderErrInfo where
  description : Option String
  code : Option String
deriving Repr

/-- An exception thrown by the provider SDK: its `error` member may be
absent. -/
structure JsError where
  error : Option ProviderErrInfo
deriving Repr

/-- Result of the create-order handler: HTTP status, JSON body, and the
list of provider order-creation calls that were made. -/
structure CreateOrderResult where
  status : Nat
  body : JVal
  providerCalls : List OrderOptions
deriving Repr

/-- Response body for missing create-order fields (line 56-59). -/
def missingFieldsBody : JVal :=
  .obj [("success", .bool false),
        ("message", .str "Missing required fields: planId, userId, and amount are required")]

/-- Response body for a non-positive amount (line 63-68). -/
def amountPositiveBody : JVal :=
  .obj [("success", .bool false), ("message", .str "Amount must be greater than 0")]

/-- Response body for an unsupported currency (line 71-76). -/
def currencyBody : JVal :=
  .obj [("success", .bool false), ("message", .str "Only INR currency is supported")]

/-- Response body for an out-of-range amount (line 79-84). -/
def amountRangeBody : JVal :=
  .obj [("success", .bool false), ("message", .str "Amount must be between ₹1 and ₹10,000")]

/-- The receipt identifier built at line 90:
`order_` + last 8 chars of `Date.now().toString()` + `_` + last 8 chars of
the user id. `now` is the current-time string. -/
def mkReceipt (now u : String) : String :=
  "order_" ++ jsSliceLast 8 now ++ "_" ++ jsSliceLast 8 u

/-- Success body of create-order (line 113-118). -/
def createSuccessBody (o : ProviderOrder) : JVal :=
  .obj [("success", .bool true), ("orderId", .str o.id),
        ("amount", .num o.amount), ("currency", .str o.currency)]

/-- The 400 body surfacing a provider error description and code
(line 125-129); an absent `code` is dropped from the JSON, as
`JSON.stringify` drops `undefined` members. -/
def providerErrBody (d : String) (code : Option String) : JVal :=
  .obj ([("success", .bool false), ("message", .str ("Payment Error: " ++ d))] ++
    (match code with
     | some c => [("errorCode", .str c)]
     | none => []))

/-- Generic 500 body of create-order (line 131-134). -/
def genericCreateFailBody : JVal :=
  .obj [("success", .bool false), ("message", .str "Failed to create order. Please try again.")]

/-- The POST /api/create-order handler (lines 50-137). `provider` is
`razorpay.orders.create`; `now` is `Date.now().toString()`. -/
def createOrder (provider : OrderOptions → Except JsError ProviderOrder)
    (now : String) (req : OrderReq) : CreateOrderResult :=
  match req.planId, req.userId, req.amount with
  | some p, some u, some a =>
    if p == "" || u == "" || a == 0 then
      ⟨400, missingFieldsBody, []⟩
    else if a ≤ 0 then
      ⟨400, amountPositiveBody, []⟩
    else if (req.currency.getD "INR") != "INR" then
      ⟨400, currencyBody, []⟩
    else if a < 100 || a > 1000000 then
      ⟨400, amountRangeBody, []⟩
    else
      let opts : OrderOptions := ⟨a, req.currency.getD "INR", mkReceipt now u, p, u⟩
      match provider opts with
      | .ok o => ⟨200, createSuccessBody o, [opts]⟩
      | .error e =>
        match e.error with
        | some info =>
          match info.description with
          | some d =>
            if d != "" then ⟨400, providerErrBody d info.code, [opts]⟩
            else ⟨500, genericCreateFailBody, [opts]⟩
          | none => ⟨500, genericCreateFailBody, [opts]⟩
        | none => ⟨500, genericCreateFailBody, [opts]⟩
  | _, _, _ => ⟨400, missingFieldsBody, []⟩

/-- Request body of POST /api/verify-payment (fields may be absent). -/
structure VerifyReq where
  razorpay_payment_id : Option String
  razorpay_order_id : Option String
  razorpay_signature : Option String
  planId : Option String
  userId : Option String
deriving Repr

/-- A plain HTTP status + JSON body reply. -/
structure HttpReply where
  status : Nat
  body : JVal
deriving Repr

/-- Response body for missing verify-payment fields (line 152-155). -/
def missingVerifyBody : JVal :=
  .obj [("success", .bool false), ("message", .str "Missing payment verification data")]

/-- Response body for a signature mismatch (line 166-169). -/
def invalidSigBody : JVal :=
  .obj [("success", .bool false), ("message", .str "Invalid payment signature")]

/-- Success body of verify-payment (line 185-190). -/
def verifySuccessBody (pid oid : String) : JVal :=
  .obj [("success", .bool true), ("message", .str "Payment verified successfully"),
        ("paymentId", .str pid), ("orderId", .str oid)]

/-- The POST /api/verify-payment handler (lines 140-199). `hmac key msg` is
the hex digest of HMAC-SHA256 of `msg` keyed by `key`
(`crypto.createHmac(sha256, key).update(msg).digest(hex)`). -/
def verifyPayment (hmac : String → String → String) (cfg : Config)
    (req : VerifyReq) : HttpReply :=
  match req.razorpay_payment_id, req.razorpay_order_id, req.razorpay_signature with
  | some pid, some oid, some sig =>
    if pid == "" || oid == "" || sig == "" then
      ⟨400, missingVerifyBody⟩
    else
      let expd := hmac cfg.keySecret (oid ++ "|" ++ pid)
      if expd != sig then ⟨400, invalidSigBody⟩
      else ⟨200, verifySuccessBody pid oid⟩
  | _, _, _ => ⟨400, missingVerifyBody⟩

/-- A payment as returned by the provider fetch. -/
structure PaymentInfo where
  id : String
  status : String
  amount : Int
  currency : String
  method : String
  created_at : Int
deriving Repr

/-- Result of the payment-status handler: HTTP reply plus the list of
provider fetch calls made. -/
structure StatusResult where
  status : Nat
  body : JVal
  fetchCalls : List String
deriving Repr

/-- Success body of payment-status (line 208-218). -/
def statusSuccessBody (p : PaymentInfo) : JVal :=
  .obj [("success", .bool true),
        ("payment", .obj [("id", .str p.id), ("status", .str p.status),
          ("amount", .num p.amount), ("currency", .str p.currency),
          ("method", .str p.method), ("created_at", .num p.created_at)])]

/-- Failure body of payment-status (line 222-225). -/
def statusFailBody : JVal :=
  .obj [("success", .bool false), ("message", .str "Failed to fetch payment status")]

/-- The GET /api/payment-status/:paymentId handler (lines 202-227).
`fetch` is `razorpay.payments.fetch`; any error maps to a generic 500. -/
def paymentStatus (fetch : String → Except JsError PaymentInfo)
    (paymentId : String) : StatusResult :=
  match fetch paymentId with
  | .ok p => ⟨200, statusSuccessBody p, [paymentId]⟩
  | .error _ => ⟨500, statusFailBody, [paymentId]⟩

/-- An object that may carry an `entity` member (the payment or
subscription member of a webhook payload). Reading `entity` on such an
object never throws, even when the member is absent. -/
structure EntityBox where
  entity : Option String
deriving Repr

/-- The `payload` member of a webhook event body. -/
structure WebhookPayload where
  payment : Option EntityBox
  subscription : Option EntityBox
deriving Repr

/-- A webhook request body, as read by the handler: its `event` tag and
`payload` may each be absent. -/
structure WebhookBody where
  event : Option String
  payload : Option WebhookPayload
deriving Repr

/-- Result of the webhook handler; `dispatched` records whether control
reached the event-type switch (lines 247-270). -/
structure WebhookResult where
  status : Nat
  body : JVal
  dispatched : Bool
deriving Repr

/-- Body of the 400 reply to a bad webhook signature (line 242). -/
def invalidWebhookSigBody : JVal :=
  .obj [("message", .str "Invalid webhook signature")]

/-- Body of the 200 reply after dispatch (line 272). -/
def receivedBody : JVal :=
  .obj [("received", .bool true)]

/-- Body of the 500 reply when dispatch throws (line 276). -/
def webhookFailBody : JVal :=
  .obj [("message", .str "Webhook processing failed")]

/-- The event-type switch (lines 247-270). Reading
`event.payload.payment.entity` throws a TypeError exactly when `payload`
or `payload.payment` is undefined (likewise for the subscription cases);
`console.log(undefined)` itself does not throw. Unknown tags (including an
absent `event` member) hit the default case and touch nothing. -/
def dispatchEvent (b : WebhookBody) : Except Unit Unit :=
  match b.event with
  | some "payment.captured" | some "payment.failed" =>
    match b.payload with
    | none => .error ()
    | some pl =>
      match pl.payment with
      | none => .error ()
      | some _ => .ok ()
  | some "subscription.activated" | some "subscription.cancelled" =>
    match b.payload with
    | none => .error ()
    | some pl =>
      match pl.subscription with
      | none => .error ()
      | some _ => .ok ()
  | _ => .ok ()

/-- The POST /api/webhook handler (lines 230-278). `stringify` is
`JSON.stringify` applied to the parsed request body; `sigHeader` is the
`x-razorpay-signature` header (absent when the client did not send it).
The expected signature is keyed by the webhook secret. -/
def webhook (hmac : String → String → String) (stringify : WebhookBody → String)
    (cfg : Config) (sigHeader : Option String) (b : WebhookBody) : WebhookResult :=
  let expd := hmac cfg.webhookSecret (stringify b)
  if sigHeader != some expd then
    ⟨400, invalidWebhookSigBody, false⟩
  else
    match dispatchEvent b with
    | .ok _ => ⟨200, receivedBody, true⟩
    | .error _ => ⟨500, webhookFailBody, true⟩

/-- The GET /api/health handler (lines 281-283); `ts` is the current ISO
timestamp. -/
def health (ts : String) : HttpReply :=
  ⟨200, .obj [("status", .str "OK"), ("timestamp", .str ts)]⟩

/-- Replace the character at position `i` of `s` by `c`: a
single-character mutation of a signature string. -/
def mutateAt (s : String) (i : Nat) (c : Char) : String :=
  ⟨s.data.set i c⟩

/-- `true` when the JSON value is an object carrying the member
`success: false`. -/
def hasSuccessFalse : JVal → Bool
  | .obj fields => fieldsHaveSuccessFalse fields
  | _ => false
where fieldsHaveSuccessFalse : List (String × JVal) → Bool
  | [] => false
  | (k, .bool b) :: rest => (k == "success" && b == false) || fieldsHaveSuccessFalse rest
  | _ :: rest => fieldsHaveSuccessFalse rest

/-- `true` when the JSON value is an object whose only member is a string
`message` field. -/
def isBareMessage : JVal → Bool
  | .obj [(k, .str _)] => k == "message"
  | _ => false

/-! ### Concrete sample instances (used by witnesses) -/

/-- A concrete stand-in for the HMAC-SHA256 hex function, used only to
instantiate theorems that hold for every such function. -/
def hmacW (key msg : String) : String := key ++ ">" ++ msg

/-- A concrete configuration. -/
def cfgW : Config := ⟨"id", "sec", "whs"⟩

/-- A concrete stand-in for `JSON.stringify`, used only to instantiate
theorems that hold for every serialisation. -/
def stringifyW (_ : WebhookBody) : String := "RAW"

/-- A provider that always succeeds. -/
def providerOkW : OrderOptions → Except JsError ProviderOrder :=
  fun _ => .ok ⟨"order_abc", 50000, "INR"⟩

/-- A provider that always fails with a described error. -/
def providerErrW : OrderOptions → Except JsError ProviderOrder :=
  fun _ => .error ⟨some ⟨some "Amount exceeds maximum", some "BAD_REQUEST_ERROR"⟩⟩

/-! ### Helper lemmas -/

lemma jsSliceLast_length_le (n : Nat) (s : String) : (jsSliceLast n s).length ≤ n := by
  simp only [jsSliceLast, String.length, List.length_drop]
  omega

lemma mutateAt_length (s : String) (i : Nat) (c : Char) :
    (mutateAt s i c).length = s.length :=
  List.length_set s.data i c

lemma mutateAt_ne_self (s : String) (i : Nat) (c : Char) (hi : i < s.data.length)
    (hc : c ≠ s.data.get ⟨i, hi⟩) : mutateAt s i c ≠ s := by
  intro h
  apply hc
  have hd : s.data.set i c = s.data := congrArg String.data h
  have h1 : (s.data.set i c)[i]? = some c := List.getElem?_set_self hi
  rw [hd] at h1
  have h2 : s.data[i]? = some (s.data.get ⟨i, hi⟩) := by
    simp [List.getElem?_eq_getElem hi]
  rw [h1] at h2
  exact (Option.some.injEq _ _ ▸ h2)

lemma mutateAt_ne_empty (s : String) (i : Nat) (c : Char) (hi : i < s.data.length) :
    mutateAt s i c ≠ "" := by
  intro h
  have hlen : (mutateAt s i c).length = 0 := by rw [h]; rfl
  rw [mutateAt_length] at hlen
  have : s.data.length = 0 := hlen
  omega

/-- Reduction of verify-payment once all three verification fields are
present and non-empty: the reply depends only on whether the recomputed
HMAC equals the supplied signature. -/
lemma verifyPayment_eq (hmac : String → String → String) (cfg : Config)
    (pid oid sig : String) (planId userId : Option String)
    (hp : pid ≠ "") (ho : oid ≠ "") (hs : sig ≠ "") :
    verifyPayment hmac cfg ⟨some pid, some oid, some sig, planId, userId⟩ =
      if hmac cfg.keySecret (oid ++ "|" ++ pid) = sig
      then ⟨200, verifySuccessBody pid oid⟩
      else ⟨400, invalidSigBody⟩ := by
  simp only [verifyPayment]
  rw [if_neg (by simp [hp, ho, hs])]
  by_cases h : hmac cfg.keySecret (oid ++ "|" ++ pid) = sig
  · rw [if_pos h, if_neg (by simp [h])]
  · rw [if_neg h, if_pos (by simp [h])]

/-! ### Claims -/

/-- C1: when paymentId, orderId and signature are all present, the
verify-payment request succeeds (HTTP 200 with the success body) iff the
client-supplied signature equals the hex-encoded HMAC-SHA256, keyed by the
server-held secret, of orderId ++ "|" ++ paymentId; on any other signature
value, including any single-character mutation of the correct one, it
returns HTTP 400 with the invalid-signature message. -/
theorem C1_verify_payment_signature (hmac : String → String → String) (cfg : Config)
    (pid oid sig : String) (planId userId : Option String) (expd : String)
    (hp : pid ≠ "") (ho : oid ≠ "") (hs : sig ≠ "")
    (he : expd = hmac cfg.keySecret (oid ++ "|" ++ pid)) :
    ((verifyPayment hmac cfg ⟨some pid, some oid, some sig, planId, userId⟩ =
        ⟨200, verifySuccessBody pid oid⟩) ↔ sig = expd) ∧
    (sig ≠ expd →
      verifyPayment hmac cfg ⟨some pid, some oid, some sig, planId, userId⟩ =
        ⟨400, invalidSigBody⟩) ∧
    (∀ i c, ∀ hi : i < expd.data.length, c ≠ expd.data.get ⟨i, hi⟩ →
      verifyPayment hmac cfg
          ⟨some pid, some oid, some (mutateAt expd i c), planId, userId⟩ =
        ⟨400, invalidSigBody⟩) := by
  refine ⟨?_, ?_, ?_⟩
  · rw [verifyPayment_eq hmac cfg pid oid sig planId userId hp ho hs, ← he]
    by_cases h : expd = sig
    · rw [if_pos h]
      exact ⟨fun _ => h.symm, fun _ => rfl⟩
    · rw [if_neg h]
      constructor
      · intro heq
        exact absurd (congrArg HttpReply.status heq) (by simp)
      · intro hsig
        exact absurd hsig.symm h
  · intro hne
    rw [verifyPayment_eq hmac cfg pid oid sig planId userId hp ho hs, ← he,
      if_neg (fun h => hne h.symm)]
  · intro i c hi hc
    rw [verifyPayment_eq hmac cfg pid oid _ planId userId hp ho
      (mutateAt_ne_empty expd i c hi), ← he,
      if_neg (fun h => mutateAt_ne_self expd i c hi hc h.symm)]

/-- Witness for C1 at a concrete instance. -/
theorem C1_verify_payment_signature_witness :
    ((verifyPayment hmacW cfgW ⟨some "p1", some "o1", some "sec>o1|p1", none, none⟩ =
        ⟨200, verifySuccessBody "p1" "o1"⟩) ↔ ("sec>o1|p1" : String) = "sec>o1|p1") ∧
    (("sec>o1|p1" : String) ≠ "sec>o1|p1" →
      verifyPayment hmacW cfgW ⟨some "p1", some "o1", some "sec>o1|p1", none, none⟩ =
        ⟨400, invalidSigBody⟩) ∧
    (∀ i c, ∀ hi : i < ("sec>o1|p1" : String).data.length,
        c ≠ ("sec>o1|p1" : String).data.get ⟨i, hi⟩ →
      verifyPayment hmacW cfgW
          ⟨some "p1", some "o1", some (mutateAt "sec>o1|p1" i c), none, none⟩ =
        ⟨400, invalidSigBody⟩) :=
  C1_verify_payment_signature hmacW cfgW "p1" "o1" "sec>o1|p1" none none "sec>o1|p1"
    (by decide) (by decide) (by decide) (by decide)

/-- C2: the webhook recomputes the hex HMAC-SHA256 of the serialized
request body keyed by the webhook secret (the API key secret is never
consulted), compares it by string equality to the x-razorpay-signature
header, and on mismatch replies 400 without dispatching any event. -/
theorem C2_webhook_signature_check (hmac : String → String → String)
    (stringify : WebhookBody → String) (cfg : Config)
    (sigHeader : Option String) (b : WebhookBody) :
    (sigHeader ≠ some (hmac cfg.webhookSecret (stringify b)) →
      webhook hmac stringify cfg sigHeader b = ⟨400, invalidWebhookSigBody, false⟩) ∧
    (∀ ki ks, webhook hmac stringify ⟨ki, ks, cfg.webhookSecret⟩ sigHeader b =
      webhook hmac stringify cfg sigHeader b) := by
  constructor
  · intro h
    simp only [webhook]
    rw [if_pos (by simpa using h)]
  · intro ki ks
    rfl

/-- Witness for C2 at a concrete instance (absent header, so a mismatch). -/
theorem C2_webhook_signature_check_witness :
    webhook hmacW stringifyW cfgW none ⟨some "payment.captured", none⟩ =
      ⟨400, invalidWebhookSigBody, false⟩ :=
  (C2_webhook_signature_check hmacW stringifyW cfgW none
    ⟨some "payment.captured", none⟩).1 (by decide)

/-- C3: any create-order request whose amount is present but non-positive
or outside [100, 1000000] is answered with HTTP 400, and the provider
order-creation call is never made. -/
theorem C3_create_order_amount_bounds
    (provider : OrderOptions → Except JsError ProviderOrder) (now : String)
    (req : OrderReq) (a : Int) (ha : req.amount = some a)
    (hbad : a ≤ 0 ∨ a < 100 ∨ 1000000 < a) :
    (createOrder provider now req).status = 400 ∧
    (createOrder provider now req).providerCalls = [] := by
  obtain ⟨pO, uO, amO, curO⟩ := req
  cases amO with
  | none => cases ha
  | some a' =>
    injection ha with ha'
    subst ha'
    cases pO with
    | none => exact ⟨rfl, rfl⟩
    | some p =>
      cases uO with
      | none => exact ⟨rfl, rfl⟩
      | some u =>
        simp only [createOrder]
        split
        · exact ⟨rfl, rfl⟩
        · split
          · exact ⟨rfl, rfl⟩
          · split
            · exact ⟨rfl, rfl⟩
            · split
              · exact ⟨rfl, rfl⟩
              · exfalso
                simp_all

/-- Witness for C3 at a concrete instance. -/
theorem C3_create_order_amount_bounds_witness :
    (createOrder providerOkW "1760000000000" ⟨some "p1", some "u1", some 50, none⟩).status = 400 ∧
    (createOrder providerOkW "1760000000000" ⟨some "p1", some "u1", some 50, none⟩).providerCalls
      = [] :=
  C3_create_order_amount_bounds providerOkW "1760000000000"
    ⟨some "p1", some "u1", some 50, none⟩ 50 rfl (by decide)

/-- C4: a create-order request carrying a currency different from INR is
answered with HTTP 400; an omitted currency defaults to INR, so the
handler behaves exactly as if the client had sent INR. -/
theorem C4_create_order_currency
    (provider : OrderOptions → Except JsError ProviderOrder) (now : String) :
    (∀ (req : OrderReq) (c : String), req.currency = some c → c ≠ "INR" →
      (createOrder provider now req).status = 400) ∧
    (∀ req : OrderReq,
      createOrder provider now ⟨req.planId, req.userId, req.amount, none⟩ =
      createOrder provider now ⟨req.planId, req.userId, req.amount, some "INR"⟩) := by
  constructor
  · intro req c hcur hc
    obtain ⟨pO, uO, amO, curO⟩ := req
    simp only at hcur
    subst hcur
    cases pO with
    | none => rfl
    | some p =>
      cases uO with
      | none => rfl
      | some u =>
        cases amO with
        | none => rfl
        | some a =>
          simp only [createOrder]
          split
          · rfl
          · split
            · rfl
            · rw [if_pos (by simp [hc])]

  · intro req
    rfl

/-- Witness for C4 at a concrete instance. -/
theorem C4_create_order_currency_witness :
    (createOrder providerOkW "1760000000000"
      ⟨some "p1", some "u1", some 50000, some "USD"⟩).status = 400 :=
  (C4_create_order_currency providerOkW "1760000000000").1
    ⟨some "p1", some "u1", some 50000, some "USD"⟩ "USD" rfl (by decide)

/-- The switch never throws on an event tag outside the four handled
ones (including an absent tag): it falls through to the default case. -/
lemma dispatchEvent_unknown (b : WebhookBody)
    (h1 : b.event ≠ some "payment.captured")
    (h2 : b.event ≠ some "payment.failed")
    (h3 : b.event ≠ some "subscription.activated")
    (h4 : b.event ≠ some "subscription.cancelled") :
    dispatchEvent b = .ok () := by
  obtain ⟨ev, pl⟩ := b
  cases ev with
  | none => rfl
  | some s =>
    simp only [dispatchEvent]

/-- C5: a webhook request with a valid signature whose event type is none
of the four handled tags is answered HTTP 200 with received:true and no
error is raised. -/
theorem C5_webhook_unknown_event (hmac : String → String → String)
    (stringify : WebhookBody → String) (cfg : Config)
    (sigHeader : Option String) (b : WebhookBody)
    (hsig : sigHeader = some (hmac cfg.webhookSecret (stringify b)))
    (hev : ∀ s ∈ ["payment.captured", "payment.failed",
        "subscription.activated", "subscription.cancelled"], b.event ≠ some s) :
    webhook hmac stringify cfg sigHeader b = ⟨200, receivedBody, true⟩ := by
  subst hsig
  simp only [webhook]
  rw [if_neg (by simp)]
  rw [dispatchEvent_unknown b (hev _ (by simp)) (hev _ (by simp))
    (hev _ (by simp)) (hev _ (by simp))]

/-- Witness for C5 at a concrete instance. -/
theorem C5_webhook_unknown_event_witness :
    webhook hmacW stringifyW cfgW
      (some (hmacW cfgW.webhookSecret (stringifyW ⟨some "invoice.paid", none⟩)))
      ⟨some "invoice.paid", none⟩ = ⟨200, receivedBody, true⟩ :=
  C5_webhook_unknown_event hmacW stringifyW cfgW _ ⟨some "invoice.paid", none⟩ rfl
    (by decide)

/-- Reduction of create-order once every validation passes: the handler
calls the provider exactly once with the assembled options and shapes the
reply from the outcome. -/
lemma createOrder_valid_eq (provider : OrderOptions → Except JsError ProviderOrder)
    (now p u : String) (a : Int) (cur : Option String)
    (hp : p ≠ "") (hu : u ≠ "") (h100 : 100 ≤ a) (hmax : a ≤ 1000000)
    (hcur : cur.getD "INR" = "INR") :
    createOrder provider now ⟨some p, some u, some a, cur⟩ =
      match provider ⟨a, cur.getD "INR", mkReceipt now u, p, u⟩ with
      | .ok o => ⟨200, createSuccessBody o, [⟨a, cur.getD "INR", mkReceipt now u, p, u⟩]⟩
      | .error e =>
        match e.error with
        | some info =>
          match info.description with
          | some d =>
            if d != "" then
              ⟨400, providerErrBody d info.code, [⟨a, cur.getD "INR", mkReceipt now u, p, u⟩]⟩
            else ⟨500, genericCreateFailBody, [⟨a, cur.getD "INR", mkReceipt now u, p, u⟩]⟩
          | none => ⟨500, genericCreateFailBody, [⟨a, cur.getD "INR", mkReceipt now u, p, u⟩]⟩
        | none => ⟨500, genericCreateFailBody, [⟨a, cur.getD "INR", mkReceipt now u, p, u⟩]⟩ := by
  simp only [createOrder]
  rw [if_neg (by simp [hp, hu]; omega), if_neg (by omega),
    if_neg (by simp [hcur]), if_neg (by simp; omega)]

/-- C6: on every create-order request that passes validation, the provider
is called with a receipt built as `order_` + the last 8 characters of the
current-time string + `_` + the last 8 characters of the user identifier,
and that receipt is shorter than 40 characters. -/
theorem C6_receipt_shape_and_bound
    (provider : OrderOptions → Except JsError ProviderOrder)
    (now p u : String) (a : Int) (cur : Option String)
    (hp : p ≠ "") (hu : u ≠ "") (h100 : 100 ≤ a) (hmax : a ≤ 1000000)
    (hcur : cur.getD "INR" = "INR") :
    (createOrder provider now ⟨some p, some u, some a, cur⟩).providerCalls =
      [⟨a, cur.getD "INR",
        "order_" ++ jsSliceLast 8 now ++ "_" ++ jsSliceLast 8 u, p, u⟩] ∧
    ("order_" ++ jsSliceLast 8 now ++ "_" ++ jsSliceLast 8 u).length < 40 := by
  constructor
  · rw [createOrder_valid_eq provider now p u a cur hp hu h100 hmax hcur]
    cases provider ⟨a, cur.getD "INR", mkReceipt now u, p, u⟩ with
    | ok o => rfl
    | error e =>
      cases he : e.error with
      | none => simp [he, mkReceipt]
      | some info =>
        cases hd : info.description with
        | none => simp [he, hd, mkReceipt]
        | some d =>
          by_cases hne : d = ""
          · simp [he, hd, hne, mkReceipt]
          · simp [he, hd, hne, mkReceipt]
  · have l1 := jsSliceLast_length_le 8 now
    have l2 := jsSliceLast_length_le 8 u
    have h6 : ("order_" : String).length = 6 := rfl
    have h1 : ("_" : String).length = 1 := rfl
    simp only [String.length_append, h6, h1]
    omega

/-- Witness for C6 at a concrete instance. -/
theorem C6_receipt_shape_and_bound_witness :
    (createOrder providerOkW "1760000000000"
        ⟨some "p1", some "user-12345678", some 50000, none⟩).providerCalls =
      [⟨50000, (none : Option String).getD "INR",
        "order_" ++ jsSliceLast 8 "1760000000000" ++ "_" ++ jsSliceLast 8 "user-12345678",
        "p1", "user-12345678"⟩] ∧
    ("order_" ++ jsSliceLast 8 "1760000000000" ++ "_" ++
      jsSliceLast 8 "user-12345678").length < 40 :=
  C6_receipt_shape_and_bound providerOkW "1760000000000" "p1" "user-12345678" 50000 none
    (by decide) (by decide) (by decide) (by decide) (by decide)

/-- C7: when the provider call of a validated create-order request fails,
a provider-reported error with a (non-empty) description is surfaced as
HTTP 400 whose body carries the description and the error code; any other
failure yields the generic HTTP 500 body. -/
theorem C7_provider_error_surfacing
    (provider : OrderOptions → Except JsError ProviderOrder)
    (now p u : String) (a : Int) (cur : Option String) (e : JsError)
    (hp : p ≠ "") (hu : u ≠ "") (h100 : 100 ≤ a) (hmax : a ≤ 1000000)
    (hcur : cur.getD "INR" = "INR")
    (hpr : provider ⟨a, cur.getD "INR", mkReceipt now u, p, u⟩ = .error e) :
    (∀ info d, e.error = some info → info.description = some d → d ≠ "" →
      createOrder provider now ⟨some p, some u, some a, cur⟩ =
        ⟨400, providerErrBody d info.code,
          [⟨a, cur.getD "INR", mkReceipt now u, p, u⟩]⟩) ∧
    ((e.error = none ∨ ∃ info, e.error = some info ∧
        (info.description = none ∨ info.description = some "")) →
      createOrder provider now ⟨some p, some u, some a, cur⟩ =
        ⟨500, genericCreateFailBody,
          [⟨a, cur.getD "INR", mkReceipt now u, p, u⟩]⟩) := by
  constructor
  · intro info d hinfo hd hne
    obtain ⟨eo⟩ := e
    have h1 : eo = some info := hinfo
    subst h1
    obtain ⟨dsc, cd⟩ := info
    have h2 : dsc = some d := hd
    subst h2
    rw [createOrder_valid_eq provider now p u a cur hp hu h100 hmax hcur, hpr]
    simp only []
    rw [if_pos (by simpa using hne)]
  · intro hcase
    obtain ⟨eo⟩ := e
    rcases hcase with hnone | ⟨info, hinfo, hdesc⟩
    · have h1 : eo = none := hnone
      subst h1
      rw [createOrder_valid_eq provider now p u a cur hp hu h100 hmax hcur, hpr]
    · have h1 : eo = some info := hinfo
      subst h1
      obtain ⟨dsc, cd⟩ := info
      rcases hdesc with hdn | hde
      · have h2 : dsc = none := hdn
        subst h2
        rw [createOrder_valid_eq provider now p u a cur hp hu h100 hmax hcur, hpr]
      · have h2 : dsc = some "" := hde
        subst h2
        rw [createOrder_valid_eq provider now p u a cur hp hu h100 hmax hcur, hpr]
        rfl

/-- Witness for C7 at a concrete instance. -/
theorem C7_provider_error_surfacing_witness :
    createOrder providerErrW "1760000000000" ⟨some "p1", some "u1", some 50000, none⟩ =
      ⟨400, providerErrBody "Amount exceeds maximum" (some "BAD_REQUEST_ERROR"),
        [⟨50000, (none : Option String).getD "INR", mkReceipt "1760000000000" "u1",
          "p1", "u1"⟩]⟩ :=
  (C7_provider_error_surfacing providerErrW "1760000000000" "p1" "u1" 50000 none
      ⟨some ⟨some "Amount exceeds maximum", some "BAD_REQUEST_ERROR"⟩⟩
      (by decide) (by decide) (by decide) (by decide) (by decide) rfl).1
    ⟨some "Amount exceeds maximum", some "BAD_REQUEST_ERROR"⟩ "Amount exceeds maximum"
    rfl rfl (by decide)

/-- C8: every failure (non-200) reply of create-order, verify-payment and
payment-status carries success:false in its JSON body; the failure replies
of the webhook carry only a bare message field; no handler ever calls its
provider operation more than once; health never fails. -/
theorem C8_failure_bodies_and_no_retries :
    (∀ (provider : OrderOptions → Except JsError ProviderOrder) (now : String)
        (req : OrderReq),
      ((createOrder provider now req).status ≠ 200 →
        hasSuccessFalse (createOrder provider now req).body = true) ∧
      (createOrder provider now req).providerCalls.length ≤ 1) ∧
    (∀ (hmac : String → String → String) (cfg : Config) (req : VerifyReq),
      (verifyPayment hmac cfg req).status ≠ 200 →
        hasSuccessFalse (verifyPayment hmac cfg req).body = true) ∧
    (∀ (fetch : String → Except JsError PaymentInfo) (pid : String),
      ((paymentStatus fetch pid).status ≠ 200 →
        hasSuccessFalse (paymentStatus fetch pid).body = true) ∧
      (paymentStatus fetch pid).fetchCalls.length ≤ 1) ∧
    (∀ (hmac : String → String → String) (stringify : WebhookBody → String)
        (cfg : Config) (sh : Option String) (b : WebhookBody),
      (webhook hmac stringify cfg sh b).status ≠ 200 →
        isBareMessage (webhook hmac stringify cfg sh b).body = true) ∧
    (∀ ts : String, (health ts).status = 200) := by
  refine ⟨?_, ?_, ?_, ?_, fun ts => rfl⟩
  · intro provider now req
    obtain ⟨pO, uO, amO, curO⟩ := req
    cases pO with
    | none => exact ⟨fun _ => rfl, Nat.zero_le 1⟩
    | some p =>
      cases uO with
      | none => exact ⟨fun _ => rfl, Nat.zero_le 1⟩
      | some u =>
        cases amO with
        | none => exact ⟨fun _ => rfl, Nat.zero_le 1⟩
        | some a =>
          simp only [createOrder]
          split
          · exact ⟨fun _ => rfl, by simp⟩
          · split
            · exact ⟨fun _ => rfl, by simp⟩
            · split
              · exact ⟨fun _ => rfl, by simp⟩
              · split
                · exact ⟨fun _ => rfl, by simp⟩
                · split
                  · exact ⟨fun h => absurd rfl h, by simp⟩
                  · split
                    · split
                      · split
                        · exact ⟨fun _ => rfl, by simp⟩
                        · exact ⟨fun _ => rfl, by simp⟩
                      · exact ⟨fun _ => rfl, by simp⟩
                    · exact ⟨fun _ => rfl, by simp⟩
  · intro hmac cfg req
    obtain ⟨pO, oO, sO, pl, ui⟩ := req
    cases pO with
    | none => exact fun _ => rfl
    | some pid =>
      cases oO with
      | none => exact fun _ => rfl
      | some oid =>
        cases sO with
        | none => exact fun _ => rfl
        | some sig =>
          simp only [verifyPayment]
          split
          · exact fun _ => rfl
          · split
            · exact fun _ => rfl
            · exact fun h => absurd rfl h
  · intro fetch pid
    simp only [paymentStatus]
    split
    · exact ⟨fun h => absurd rfl h, by simp⟩
    · exact ⟨fun _ => rfl, by simp⟩
  · intro hmac stringify cfg sh b
    simp only [webhook]
    split
    · exact fun _ => rfl
    · split
      · exact fun h => absurd rfl h
      · exact fun _ => rfl

/-- C9: a create-order request whose amount is 0 or absent, or whose
planId or userId is the empty string, is answered with the
missing-required-fields body (HTTP 400), not with the positivity or range
message, because presence is tested by JavaScript falsiness first. -/
theorem C9_falsy_fields_hit_missing_check
    (provider : OrderOptions → Except JsError ProviderOrder) (now : String)
    (req : OrderReq)
    (h : req.amount = some 0 ∨ req.amount = none ∨
      req.planId = some "" ∨ req.userId = some "") :
    createOrder provider now req = ⟨400, missingFieldsBody, []⟩ := by
  obtain ⟨pO, uO, amO, curO⟩ := req
  cases pO with
  | none => rfl
  | some p =>
    cases uO with
    | none => rfl
    | some u =>
      cases amO with
      | none => rfl
      | some a =>
        simp only [createOrder]
        rw [if_pos (by rcases h with h | h | h | h <;> simp_all)]

/-- Witness for C9 at a concrete instance (amount equal to 0). -/
theorem C9_falsy_fields_hit_missing_check_witness :
    createOrder providerOkW "1760000000000" ⟨some "p1", some "u1", some 0, none⟩ =
      ⟨400, missingFieldsBody, []⟩ :=
  C9_falsy_fields_hit_missing_check providerOkW "1760000000000"
    ⟨some "p1", some "u1", some 0, none⟩ (Or.inl rfl)

/-- C10 counterexample: a correctly signed payment.captured webhook whose
body lacks the nested path payload.payment.entity (the payment member is
present but carries no entity) is answered HTTP 200 received:true, not the
claimed HTTP 500: reading a missing member on an existing object does not
throw. -/
theorem C10_missing_entity_counterexample :
    webhook hmacW stringifyW cfgW
      (some (hmacW cfgW.webhookSecret
        (stringifyW ⟨some "payment.captured", some ⟨some ⟨none⟩, none⟩⟩)))
      ⟨some "payment.captured", some ⟨some ⟨none⟩, none⟩⟩ =
      ⟨200, receivedBody, true⟩ := rfl

/-- The switch throws on payment events exactly when the payload or its
payment member is absent. -/
lemma dispatchEvent_payment_err (ev : String) (pl : Option WebhookPayload)
    (hev : ev = "payment.captured" ∨ ev = "payment.failed")
    (hmiss : pl = none ∨ ∃ w, pl = some w ∧ w.payment = none) :
    dispatchEvent ⟨some ev, pl⟩ = .error () := by
  rcases hev with rfl | rfl <;>
    rcases hmiss with rfl | ⟨w, rfl, hwp⟩ <;>
    first
      | rfl
      | · obtain ⟨wp, ws⟩ := w
          have hw : wp = none := hwp
          subst hw
          rfl

/-- The switch throws on subscription events exactly when the payload or
its subscription member is absent. -/
lemma dispatchEvent_subscription_err (ev : String) (pl : Option WebhookPayload)
    (hev : ev = "subscription.activated" ∨ ev = "subscription.cancelled")
    (hmiss : pl = none ∨ ∃ w, pl = some w ∧ w.subscription = none) :
    dispatchEvent ⟨some ev, pl⟩ = .error () := by
  rcases hev with rfl | rfl <;>
    rcases hmiss with rfl | ⟨w, rfl, hwp⟩ <;>
    first
      | rfl
      | · obtain ⟨wp, ws⟩ := w
          have hw : ws = none := hwp
          subst hw
          rfl

/-- C10 (amended): on a correctly signed webhook, dispatch throws and the
endpoint returns HTTP 500 for the payment (resp. subscription) events
exactly when the payload or its payment (resp. subscription) member is
absent; when the required member object exists, a missing entity field
inside it does not throw and the reply is 200 received:true, for all four
handled event types. -/
theorem C10_dispatch_throw_on_missing_member (hmac : String → String → String)
    (stringify : WebhookBody → String) (cfg : Config)
    (sigHeader : Option String) (b : WebhookBody)
    (hsig : sigHeader = some (hmac cfg.webhookSecret (stringify b))) :
    ((b.event = some "payment.captured" ∨ b.event = some "payment.failed") →
      (b.payload = none ∨ ∃ w, b.payload = some w ∧ w.payment = none) →
      webhook hmac stringify cfg sigHeader b = ⟨500, webhookFailBody, true⟩) ∧
    ((b.event = some "subscription.activated" ∨
        b.event = some "subscription.cancelled") →
      (b.payload = none ∨ ∃ w, b.payload = some w ∧ w.subscription = none) →
      webhook hmac stringify cfg sigHeader b = ⟨500, webhookFailBody, true⟩) ∧
    (∀ w pb, (b.event = some "payment.captured" ∨ b.event = some "payment.failed") →
      b.payload = some w → w.payment = some pb →
      webhook hmac stringify cfg sigHeader b = ⟨200, receivedBody, true⟩) ∧
    (∀ w sb, (b.event = some "subscription.activated" ∨
        b.event = some "subscription.cancelled") →
      b.payload = some w → w.subscription = some sb →
      webhook hmac stringify cfg sigHeader b = ⟨200, receivedBody, true⟩) := by
  subst hsig
  obtain ⟨evO, plO⟩ := b
  refine ⟨?_, ?_, ?_, ?_⟩
  · intro hev hmiss
    simp only [webhook]
    rw [if_neg (by simp)]
    rcases hev with h | h
    · have h' : evO = some "payment.captured" := h
      subst h'
      rw [dispatchEvent_payment_err "payment.captured" plO (Or.inl rfl) hmiss]
    · have h' : evO = some "payment.failed" := h
      subst h'
      rw [dispatchEvent_payment_err "payment.failed" plO (Or.inr rfl) hmiss]
  · intro hev hmiss
    simp only [webhook]
    rw [if_neg (by simp)]
    rcases hev with h | h
    · have h' : evO = some "subscription.activated" := h
      subst h'
      rw [dispatchEvent_subscription_err "subscription.activated" plO (Or.inl rfl) hmiss]
    · have h' : evO = some "subscription.cancelled" := h
      subst h'
      rw [dispatchEvent_subscription_err "subscription.cancelled" plO (Or.inr rfl) hmiss]
  · intro w pb hev hpl hpb
    have h2 : plO = some w := hpl
    subst h2
    obtain ⟨wp, ws⟩ := w
    have h3 : wp = some pb := hpb
    subst h3
    rcases hev with h | h
    · have h1 : evO = some "payment.captured" := h
      subst h1
      simp only [webhook]
      rw [if_neg (by simp)]
      rfl
    · have h1 : evO = some "payment.failed" := h
      subst h1
      simp only [webhook]
      rw [if_neg (by simp)]
      rfl
  · intro w sb hev hpl hpb
    have h2 : plO = some w := hpl
    subst h2
    obtain ⟨wp, ws⟩ := w
    have h3 : ws = some sb := hpb
    subst h3
    rcases hev with h | h
    · have h1 : evO = some "subscription.activated" := h
      subst h1
      simp only [webhook]
      rw [if_neg (by simp)]
      rfl
    · have h1 : evO = some "subscription.cancelled" := h
      subst h1
      simp only [webhook]
      rw [if_neg (by simp)]
      rfl

/-- Witness for the amended C10 at a concrete instance (payload present
but its payment member absent). -/
theorem C10_dispatch_throw_on_missing_member_witness :
    webhook hmacW stringifyW cfgW
      (some (hmacW cfgW.webhookSecret
        (stringifyW ⟨some "payment.captured", some ⟨none, none⟩⟩)))
      ⟨some "payment.captured", some ⟨none, none⟩⟩ =
      ⟨500, webhookFailBody, true⟩ :=
  (C10_dispatch_throw_on_missing_member hmacW stringifyW cfgW _
      ⟨some "payment.captured", some ⟨none, none⟩⟩ rfl).1
    (Or.inl rfl) (Or.inr ⟨⟨none, none⟩, rfl, rfl⟩)

/-- Witness for C8 at a concrete instance (a request with every field
absent fails with a success:false body and no provider call). -/
theorem C8_failure_bodies_and_no_retries_witness :
    hasSuccessFalse
      (createOrder providerOkW "1760000000000" ⟨none, none, none, none⟩).body = true :=
  (C8_failure_bodies_and_no_retries.1 providerOkW "1760000000000"
    ⟨none, none, none, none⟩).1 (by decide)
